import Mathlib

/-!
Verification of the webhook dispatch layer of the Wasender TypeScript SDK
(src/webhook.ts), via a shallow embedding of the relevant JavaScript runtime
semantics (truthiness, typeof, property access) and of the two functions
`verifyWasenderWebhookSignature` and `dispatchWebhookEvent`.
-/

/-- JSValue models a JavaScript runtime value as produced by JSON parsing,
plus the distinguished values null, undefined and booleans. Numbers are
modelled as integers (the payloads at issue carry only integer timestamps). -/
inductive JSValue where
  | null
  | undefined
  | bool (b : Bool)
  | num (n : Int)
  | str (s : String)
  | arr (elems : List JSValue)
  | obj (fields : List (String × JSValue))

namespace JSValue

/-- JavaScript truthiness: null, undefined, false, 0 and the empty string are
falsy; every object, array, non-zero number and non-empty string is truthy. -/
def truthy : JSValue → Bool
  | .null => false
  | .undefined => false
  | .bool b => b
  | .num n => n != 0
  | .str s => !(s == "")
  | .arr _ => true
  | .obj _ => true

/-- Models the JavaScript test `typeof v === "object"`. Note that in
JavaScript `typeof null` is "object", and arrays are objects. -/
def isObjectType : JSValue → Bool
  | .null => true
  | .arr _ => true
  | .obj _ => true
  | _ => false

/-- Property lookup in an object field list; a missing key yields undefined,
as JavaScript property access does. -/
def getField : List (String × JSValue) → String → JSValue
  | [], _ => .undefined
  | (k, v) :: rest, key => if k == key then v else getField rest key

/-- Models JavaScript property access `v.key`: field lookup on objects,
undefined on everything else (the dispatcher only reaches it behind a
typeof guard, so host-object properties never matter here). -/
def get : JSValue → String → JSValue
  | .obj fields, key => getField fields key
  | _, _ => .undefined

/-- Whether an object value carries a property with the given key (the
JavaScript `key in v` test for own properties of plain objects). -/
def hasKey : JSValue → String → Bool
  | .obj fields, key => fields.any (fun p => p.1 == key)
  | _, _ => false

end JSValue

/-- Truthiness of the `string | undefined | null` parameter of
verifyWasenderWebhookSignature: undefined/null and the empty string are
falsy, every other string is truthy. -/
def jsStringTruthy : Option String → Bool
  | none => false
  | some s => !(s == "")

/-- Embedding of verifyWasenderWebhookSignature from src/webhook.ts:
`if (!requestSignature || !configuredSecret) return false;
 return requestSignature === configuredSecret;`
The first parameter is `string | undefined | null` (none models both
undefined and null); the second is a plain string. -/
def verifyWasenderWebhookSignature (requestSignature : Option String)
    (configuredSecret : String) : Bool :=
  if !(jsStringTruthy requestSignature) || !(jsStringTruthy (some configuredSecret)) then
    false
  else
    requestSignature == some configuredSecret

namespace WasenderWebhookEventType

def ChatsUpsert : String := "chats.upsert"

def ChatsUpdate : String := "chats.update"

def ChatsDelete : String := "chats.delete"

def GroupsUpsert : String := "groups.upsert"

def GroupsUpdate : String := "groups.update"

def GroupParticipantsUpdate : String := "group-participants.update"

def ContactsUpsert : String := "contacts.upsert"

def ContactsUpdate : String := "contacts.update"

def MessagesUpsert : String := "messages.upsert"

def MessagesUpdate : String := "messages.update"

def MessagesDelete : String := "messages.delete"

def MessagesReaction : String := "messages.reaction"

def CallReceived : String := "call.received"

def MessagesPersonalReceived : String := "messages-personal.received"

def MessagesNewsletterReceived : String := "messages-newsletter.received"

def MessagesGroupReceived : String := "messages-group.received"

def MessagesReceived : String := "messages.received"

def PollResults : String := "poll.results"

def MessageReceiptUpdate : String := "message-receipt.update"

def MessageSent : String := "message.sent"

def SessionStatus : String := "session.status"

def QrCodeUpdated : String := "qrcode.updated"

end WasenderWebhookEventType

/-- The 22 case labels of the switch statement in dispatchWebhookEvent,
i.e. all members of the WasenderWebhookEventType constant object. Every
matching case of the switch returns `raw` itself (the casts are erased at
runtime), so the switch is semantically a membership test on this list. -/
def knownEventNames : List String :=
  [WasenderWebhookEventType.MessagesUpsert,
   WasenderWebhookEventType.MessagesUpdate,
   WasenderWebhookEventType.MessagesDelete,
   WasenderWebhookEventType.MessagesReaction,
   WasenderWebhookEventType.MessageReceiptUpdate,
   WasenderWebhookEventType.MessageSent,
   WasenderWebhookEventType.SessionStatus,
   WasenderWebhookEventType.QrCodeUpdated,
   WasenderWebhookEventType.CallReceived,
   WasenderWebhookEventType.MessagesPersonalReceived,
   WasenderWebhookEventType.MessagesNewsletterReceived,
   WasenderWebhookEventType.MessagesGroupReceived,
   WasenderWebhookEventType.MessagesReceived,
   WasenderWebhookEventType.PollResults,
   WasenderWebhookEventType.ChatsUpsert,
   WasenderWebhookEventType.ChatsUpdate,
   WasenderWebhookEventType.ChatsDelete,
   WasenderWebhookEventType.GroupsUpsert,
   WasenderWebhookEventType.GroupsUpdate,
   WasenderWebhookEventType.GroupParticipantsUpdate,
   WasenderWebhookEventType.ContactsUpsert,
   WasenderWebhookEventType.ContactsUpdate]

/-- Whether the discriminant value strictly equals (===) one of the 22 case
labels. A non-string value never strictly equals a string literal, so every
non-string discriminant falls to the default case. -/
def isKnownEventName : JSValue → Bool
  | .str s => knownEventNames.contains s
  | _ => false

/-- Embedding of dispatchWebhookEvent from src/webhook.ts:
guard `if (!raw || typeof raw !== "object" || !raw.event)` returning the
object literal `\x7b event: "unknown", data: raw, raw \x7d`; then a 22-way
switch on `raw.event` in which every matching case returns `raw`, and whose
default case builds the fallback object literal
`\x7b event: ev, timestamp: raw.timestamp, data: raw.data,
sessionId: raw.sessionId, raw \x7d`. -/
def dispatchWebhookEvent (raw : JSValue) : JSValue :=
  if !raw.truthy || !raw.isObjectType || !(raw.get "event").truthy then
    .obj [("event", .str "unknown"), ("data", raw), ("raw", raw)]
  else
    let ev := raw.get "event"
    if isKnownEventName ev then
      raw
    else
      .obj [("event", ev),
            ("timestamp", raw.get "timestamp"),
            ("data", raw.get "data"),
            ("sessionId", raw.get "sessionId"),
            ("raw", raw)]

/-- Concrete call.received payload from the spec scenario and the test
suite. -/
def callReceivedRaw : JSValue :=
  .obj [("event", .str "call.received"),
        ("data", .obj [("call",
          .obj [("id", .str "call123"),
                ("from", .str "12345@s.whatsapp.net"),
                ("date", .str "2025-10-17T12:00:00Z"),
                ("isGroup", .bool false)])])]

/-- Concrete messages-group.received payload from the spec scenario. -/
def groupReceivedRaw : JSValue :=
  .obj [("event", .str "messages-group.received"),
        ("data", .obj [
          ("key", .obj [("id", .str "msg2"),
                        ("fromMe", .bool false),
                        ("remoteJid", .str "120363@g.us"),
                        ("participant", .str "12345@s.whatsapp.net")]),
          ("message", .obj [("conversation", .str "group hello")])])]

/-- Concrete field list of a well-formed call.received delivery carrying
timestamp, data and sessionId. -/
def c1Fields : List (String × JSValue) :=
  [("event", .str "call.received"),
   ("timestamp", .num 1697640000),
   ("data", .num 7),
   ("sessionId", .str "session1")]

/-- Concrete field list of a delivery with an unrecognized event name. -/
def c2Fields : List (String × JSValue) :=
  [("event", .str "unknown.custom.event"),
   ("timestamp", .num 5),
   ("data", .arr [.num 1]),
   ("sessionId", .str "sess")]

/-- Concrete input object whose event field is the truthy non-string 5. -/
def c3CounterRaw : JSValue := .obj [("event", .num 5)]

/-- Concrete field list whose event field is the number 5 and which carries
a data field. -/
def c8Fields : List (String × JSValue) :=
  [("event", .num 5), ("data", .str "d")]

/-- Concrete field list of a known event carrying an extra unregistered
field and no raw field. -/
def c9Fields : List (String × JSValue) :=
  [("event", .str "chats.upsert"), ("data", .arr []), ("extra", .num 1)]

/-- Concrete malformed input: an object whose event field is the empty
string (hence falsy) yet which carries timestamp, sessionId and data. -/
def c10Raw : JSValue :=
  .obj [("event", .str ""),
        ("timestamp", .num 123),
        ("sessionId", .str "sid"),
        ("data", .num 9)]

/-- Helper: a plain object is truthy. -/
theorem truthy_obj (fields : List (String × JSValue)) :
    (JSValue.obj fields).truthy = true := rfl

/-- Helper: a plain object has typeof "object". -/
theorem isObjectType_obj (fields : List (String × JSValue)) :
    (JSValue.obj fields).isObjectType = true := rfl

/-- Helper: truthiness of a string value. -/
theorem truthy_str (s : String) : (JSValue.str s).truthy = !(s == "") := rfl

/-- Helper: property access on a plain object is field lookup. -/
theorem get_obj (fields : List (String × JSValue)) (k : String) :
    (JSValue.obj fields).get k = JSValue.getField fields k := rfl

/-- Helper: a string discriminant is known exactly when the 22-element list
contains it. -/
theorem isKnownEventName_str (s : String) :
    isKnownEventName (JSValue.str s) = knownEventNames.contains s := rfl

/-- Helper: every known event name is non-empty. -/
theorem knownEventNames_ne_empty (name : String) (hk : name ∈ knownEventNames) :
    (name == "") = false := by
  have hne : name ≠ "" := by
    intro h
    subst h
    revert hk
    decide
  simpa using hne

/-- Helper: on an object whose event field is a known event name, the
dispatcher returns the input object itself. -/
theorem dispatch_of_known_event (fields : List (String × JSValue)) (name : String)
    (hev : JSValue.getField fields "event" = JSValue.str name)
    (hk : name ∈ knownEventNames) :
    dispatchWebhookEvent (JSValue.obj fields) = JSValue.obj fields := by
  have hne := knownEventNames_ne_empty name hk
  have hcontains : knownEventNames.contains name = true := List.elem_iff.mpr hk
  simp [dispatchWebhookEvent, get_obj, truthy_obj, isObjectType_obj, hev,
        truthy_str, hne, isKnownEventName_str, hcontains]
  intro hcontra
  exact absurd hk hcontra

/-- Helper: on an object whose event field is truthy but matches no case of
the switch, the dispatcher builds the default-case fallback object. -/
theorem dispatch_of_unmatched_event (fields : List (String × JSValue))
    (htruthy : (JSValue.getField fields "event").truthy = true)
    (hnk : isKnownEventName (JSValue.getField fields "event") = false) :
    dispatchWebhookEvent (JSValue.obj fields) =
      JSValue.obj [("event", JSValue.getField fields "event"),
        ("timestamp", JSValue.getField fields "timestamp"),
        ("data", JSValue.getField fields "data"),
        ("sessionId", JSValue.getField fields "sessionId"),
        ("raw", JSValue.obj fields)] := by
  simp [dispatchWebhookEvent, get_obj, truthy_obj, isObjectType_obj, htruthy, hnk]

/-- Helper: on any input failing the guard (falsy, not of object type, or
with a falsy event field), the dispatcher returns the sentinel fallback. -/
theorem dispatch_of_malformed (raw : JSValue)
    (h : (!raw.truthy || !raw.isObjectType || !(raw.get "event").truthy) = true) :
    dispatchWebhookEvent raw =
      JSValue.obj [("event", JSValue.str "unknown"), ("data", raw), ("raw", raw)] := by
  simp [dispatchWebhookEvent, h]

/-- C1: the switch of dispatchWebhookEvent knows exactly 22 event names,
and for each of them, dispatching an object whose event field is that name
yields an event whose event field equals the name and whose timestamp,
sessionId and data fields are structurally identical to those of the input,
with no loss or coercion. -/
theorem C1_known_event_roundtrip (name : String) (hk : name ∈ knownEventNames)
    (fields : List (String × JSValue))
    (hev : JSValue.getField fields "event" = JSValue.str name) :
    knownEventNames.length = 22
    ∧ (dispatchWebhookEvent (JSValue.obj fields)).get "event" = JSValue.str name
    ∧ (dispatchWebhookEvent (JSValue.obj fields)).get "timestamp"
        = (JSValue.obj fields).get "timestamp"
    ∧ (dispatchWebhookEvent (JSValue.obj fields)).get "sessionId"
        = (JSValue.obj fields).get "sessionId"
    ∧ (dispatchWebhookEvent (JSValue.obj fields)).get "data"
        = (JSValue.obj fields).get "data" := by
  have hd := dispatch_of_known_event fields name hev hk
  refine ⟨rfl, ?_, ?_, ?_, ?_⟩
  · rw [hd, get_obj, hev]
  · rw [hd]
  · rw [hd]
  · rw [hd]

/-- C1 witness: the round-trip property instantiated at the concrete
call.received delivery. -/
theorem C1_known_event_roundtrip_witness :
    "call.received" ∈ knownEventNames
    ∧ JSValue.getField c1Fields "event" = JSValue.str "call.received"
    ∧ (knownEventNames.length = 22
       ∧ (dispatchWebhookEvent (JSValue.obj c1Fields)).get "event"
           = JSValue.str "call.received"
       ∧ (dispatchWebhookEvent (JSValue.obj c1Fields)).get "timestamp"
           = (JSValue.obj c1Fields).get "timestamp"
       ∧ (dispatchWebhookEvent (JSValue.obj c1Fields)).get "sessionId"
           = (JSValue.obj c1Fields).get "sessionId"
       ∧ (dispatchWebhookEvent (JSValue.obj c1Fields)).get "data"
           = (JSValue.obj c1Fields).get "data") :=
  ⟨by decide, rfl,
   C1_known_event_roundtrip "call.received" (by decide) c1Fields rfl⟩

/-- C2: dispatching an object whose event field is a non-empty string not
among the 22 known names yields the fallback object that keeps the original
event string verbatim, copies timestamp, data and sessionId from the input
fields, and attaches the full raw input. -/
theorem C2_unrecognized_event_fallback (fields : List (String × JSValue)) (s : String)
    (hs : s ≠ "") (hnk : s ∉ knownEventNames)
    (hev : JSValue.getField fields "event" = JSValue.str s) :
    dispatchWebhookEvent (JSValue.obj fields) =
      JSValue.obj [("event", JSValue.str s),
        ("timestamp", JSValue.getField fields "timestamp"),
        ("data", JSValue.getField fields "data"),
        ("sessionId", JSValue.getField fields "sessionId"),
        ("raw", JSValue.obj fields)] := by
  have htruthy : (JSValue.getField fields "event").truthy = true := by
    rw [hev, truthy_str]
    simpa using hs
  have hnotknown : isKnownEventName (JSValue.getField fields "event") = false := by
    rw [hev, isKnownEventName_str]
    simpa using hnk
  have hd := dispatch_of_unmatched_event fields htruthy hnotknown
  rw [hd, hev]

/-- C2 witness: the fallback identity property instantiated at the event
name "unknown.custom.event". -/
theorem C2_unrecognized_event_fallback_witness :
    "unknown.custom.event" ≠ ""
    ∧ "unknown.custom.event" ∉ knownEventNames
    ∧ JSValue.getField c2Fields "event" = JSValue.str "unknown.custom.event"
    ∧ dispatchWebhookEvent (JSValue.obj c2Fields) =
        JSValue.obj [("event", JSValue.str "unknown.custom.event"),
          ("timestamp", JSValue.getField c2Fields "timestamp"),
          ("data", JSValue.getField c2Fields "data"),
          ("sessionId", JSValue.getField c2Fields "sessionId"),
          ("raw", JSValue.obj c2Fields)] :=
  ⟨by decide, by decide, rfl,
   C2_unrecognized_event_fallback c2Fields "unknown.custom.event"
     (by decide) (by decide) rfl⟩

/-- C3 counterexample: the object with event field the number 5 is an
object with a non-string event field, so the claim requires the sentinel
"unknown"; but the dispatcher passes the guard (5 is truthy) and keeps the
number 5 as the resulting event field. -/
theorem C3_nonstring_event_counterexample :
    (dispatchWebhookEvent c3CounterRaw).get "event" ≠ JSValue.str "unknown" := by
  have hval : (dispatchWebhookEvent c3CounterRaw).get "event" = JSValue.num 5 := rfl
  intro h
  rw [hval] at h
  exact JSValue.noConfusion h

/-- C3 (amended): for every input failing the dispatcher guard — an input
that is falsy (null, undefined, false, 0 or the empty string), or not of
object type, or whose event field is absent or falsy — the result is the
sentinel fallback whose event field is the fixed string "unknown", whose
data field is the entire raw input, and which attaches the raw input.
(Objects with a truthy non-string event field pass the guard instead and
keep their discriminant verbatim.) -/
theorem C3_malformed_sentinel (raw : JSValue)
    (h : (!raw.truthy || !raw.isObjectType || !(raw.get "event").truthy) = true) :
    dispatchWebhookEvent raw =
      JSValue.obj [("event", JSValue.str "unknown"), ("data", raw), ("raw", raw)] :=
  dispatch_of_malformed raw h

/-- C3 witness: the sentinel fallback at the input null. -/
theorem C3_malformed_sentinel_witness :
    ((!JSValue.null.truthy || !JSValue.null.isObjectType
       || !(JSValue.null.get "event").truthy) = true)
    ∧ dispatchWebhookEvent JSValue.null =
        JSValue.obj [("event", JSValue.str "unknown"),
          ("data", JSValue.null), ("raw", JSValue.null)] :=
  ⟨rfl, C3_malformed_sentinel JSValue.null rfl⟩

/-- C4: dispatchWebhookEvent is total: for every input value whatsoever it
returns an event value (an object), never failing. -/
theorem C4_dispatch_total (raw : JSValue) :
    ∃ fields, dispatchWebhookEvent raw = JSValue.obj fields := by
  cases raw with
  | null => exact ⟨_, rfl⟩
  | undefined => exact ⟨_, rfl⟩
  | arr elems => exact ⟨_, rfl⟩
  | bool b =>
    refine ⟨[("event", JSValue.str "unknown"),
             ("data", JSValue.bool b), ("raw", JSValue.bool b)], ?_⟩
    simp [dispatchWebhookEvent, JSValue.truthy, JSValue.isObjectType]
  | num n =>
    refine ⟨[("event", JSValue.str "unknown"),
             ("data", JSValue.num n), ("raw", JSValue.num n)], ?_⟩
    simp [dispatchWebhookEvent, JSValue.truthy, JSValue.isObjectType]
  | str s =>
    refine ⟨[("event", JSValue.str "unknown"),
             ("data", JSValue.str s), ("raw", JSValue.str s)], ?_⟩
    simp [dispatchWebhookEvent, JSValue.truthy, JSValue.isObjectType]
  | obj fields =>
    unfold dispatchWebhookEvent
    split
    · exact ⟨_, rfl⟩
    · dsimp only
      split
      · exact ⟨_, rfl⟩
      · exact ⟨_, rfl⟩

/-- C5: the signature check rejects an absent or empty signature and an
empty secret, and otherwise accepts exactly when the two strings are equal;
in particular at the five concrete examples of the claim. -/
theorem C5_signature_check :
    (∀ sec, verifyWasenderWebhookSignature none sec = false)
    ∧ (∀ s sec, verifyWasenderWebhookSignature (some s) sec
        = (!(s == "") && (!(sec == "") && (s == sec))))
    ∧ verifyWasenderWebhookSignature none "secret" = false
    ∧ verifyWasenderWebhookSignature (some "") "secret" = false
    ∧ verifyWasenderWebhookSignature (some "s") "" = false
    ∧ verifyWasenderWebhookSignature (some "abc") "abc" = true
    ∧ verifyWasenderWebhookSignature (some "abc") "abcd" = false := by
  refine ⟨fun sec => rfl, ?_, rfl, rfl, rfl, rfl, rfl⟩
  intro s sec
  unfold verifyWasenderWebhookSignature jsStringTruthy
  cases hs : s == "" <;> cases hsec : sec == "" <;> simp [hs, hsec]

/-- C6: dispatchWebhookEvent is deterministic: dispatching the same raw
value twice yields structurally equal event values. -/
theorem C6_dispatch_deterministic (a b : JSValue) (h : a = b) :
    dispatchWebhookEvent a = dispatchWebhookEvent b := by
  rw [h]

/-- C6 witness: determinism at the concrete call.received payload. -/
theorem C6_dispatch_deterministic_witness :
    callReceivedRaw = callReceivedRaw
    ∧ dispatchWebhookEvent callReceivedRaw = dispatchWebhookEvent callReceivedRaw :=
  ⟨rfl, C6_dispatch_deterministic callReceivedRaw callReceivedRaw rfl⟩

/-- C7: the call.received scenario yields an event with event field
"call.received" whose payload keeps call.id = "call123", and the
messages-group.received scenario preserves key.participant and
message.conversation unchanged under the group event name. -/
theorem C7_concrete_scenarios :
    (dispatchWebhookEvent callReceivedRaw).get "event" = JSValue.str "call.received"
    ∧ (((dispatchWebhookEvent callReceivedRaw).get "data").get "call").get "id"
        = JSValue.str "call123"
    ∧ (dispatchWebhookEvent groupReceivedRaw).get "event"
        = JSValue.str "messages-group.received"
    ∧ (((dispatchWebhookEvent groupReceivedRaw).get "data").get "key").get "participant"
        = JSValue.str "12345@s.whatsapp.net"
    ∧ (((dispatchWebhookEvent groupReceivedRaw).get "data").get "message").get "conversation"
        = JSValue.str "group hello" :=
  ⟨rfl, rfl, rfl, rfl, rfl⟩

/-- C8: an object whose event field is truthy but not a string passes the
malformed-input guard and reaches the default switch case, so the result is
the fallback object carrying the non-string discriminant verbatim, never the
sentinel "unknown". -/
theorem C8_truthy_nonstring_event (fields : List (String × JSValue)) (v : JSValue)
    (hev : JSValue.getField fields "event" = v) (ht : v.truthy = true)
    (hns : ∀ s, v ≠ JSValue.str s) :
    dispatchWebhookEvent (JSValue.obj fields) =
      JSValue.obj [("event", v),
        ("timestamp", JSValue.getField fields "timestamp"),
        ("data", JSValue.getField fields "data"),
        ("sessionId", JSValue.getField fields "sessionId"),
        ("raw", JSValue.obj fields)]
    ∧ (dispatchWebhookEvent (JSValue.obj fields)).get "event" ≠ JSValue.str "unknown" := by
  have htruthy : (JSValue.getField fields "event").truthy = true := by
    rw [hev]
    exact ht
  have hnk : isKnownEventName v = false := by
    cases v with
    | str s => exact absurd rfl (hns s)
    | null => rfl
    | undefined => rfl
    | bool b => rfl
    | num n => rfl
    | arr elems => rfl
    | obj fs => rfl
  have hnotknown : isKnownEventName (JSValue.getField fields "event") = false := by
    rw [hev]
    exact hnk
  have hd := dispatch_of_unmatched_event fields htruthy hnotknown
  rw [hev] at hd
  have hget : (JSValue.obj [("event", v),
      ("timestamp", JSValue.getField fields "timestamp"),
      ("data", JSValue.getField fields "data"),
      ("sessionId", JSValue.getField fields "sessionId"),
      ("raw", JSValue.obj fields)]).get "event" = v := rfl
  refine ⟨hd, ?_⟩
  rw [hd, hget]
  exact hns "unknown"

/-- C8 witness: the non-string discriminant property at the object whose
event field is the number 5. -/
theorem C8_truthy_nonstring_event_witness :
    JSValue.getField c8Fields "event" = JSValue.num 5
    ∧ (JSValue.num 5).truthy = true
    ∧ (∀ s, JSValue.num 5 ≠ JSValue.str s)
    ∧ (dispatchWebhookEvent (JSValue.obj c8Fields) =
        JSValue.obj [("event", JSValue.num 5),
          ("timestamp", JSValue.getField c8Fields "timestamp"),
          ("data", JSValue.getField c8Fields "data"),
          ("sessionId", JSValue.getField c8Fields "sessionId"),
          ("raw", JSValue.obj c8Fields)]
       ∧ (dispatchWebhookEvent (JSValue.obj c8Fields)).get "event"
           ≠ JSValue.str "unknown") :=
  ⟨rfl, rfl, fun _ h => JSValue.noConfusion h,
   C8_truthy_nonstring_event c8Fields (JSValue.num 5) rfl rfl
     (fun _ h => JSValue.noConfusion h)⟩

/-- C9: for a known event name the dispatcher returns the input object
itself unchanged — every field, registered or not, is preserved and none is
added — and when the input carries no raw field, neither does the result. -/
theorem C9_known_event_identity (fields : List (String × JSValue)) (name : String)
    (hev : JSValue.getField fields "event" = JSValue.str name)
    (hk : name ∈ knownEventNames) :
    dispatchWebhookEvent (JSValue.obj fields) = JSValue.obj fields
    ∧ ((∀ p ∈ fields, p.1 ≠ "raw") →
        (dispatchWebhookEvent (JSValue.obj fields)).hasKey "raw" = false) := by
  have hd := dispatch_of_known_event fields name hev hk
  refine ⟨hd, fun hnoraw => ?_⟩
  rw [hd]
  show fields.any (fun p => p.1 == "raw") = false
  simp [List.any_eq_false]
  intro a b hab
  simpa using hnoraw (a, b) hab

/-- C9 witness: identity and absence of a raw field at a chats.upsert
object carrying an extra unregistered field. -/
theorem C9_known_event_identity_witness :
    JSValue.getField c9Fields "event" = JSValue.str "chats.upsert"
    ∧ "chats.upsert" ∈ knownEventNames
    ∧ (dispatchWebhookEvent (JSValue.obj c9Fields) = JSValue.obj c9Fields
       ∧ ((∀ p ∈ c9Fields, p.1 ≠ "raw") →
           (dispatchWebhookEvent (JSValue.obj c9Fields)).hasKey "raw" = false)) :=
  ⟨rfl, by decide,
   C9_known_event_identity c9Fields "chats.upsert" rfl (by decide)⟩

/-- C10: in the malformed case the sentinel fallback carries no timestamp
key and no sessionId key, even when the input object has both, and its data
field is the entire raw input value. -/
theorem C10_malformed_no_metadata (raw : JSValue)
    (h : (!raw.truthy || !raw.isObjectType || !(raw.get "event").truthy) = true) :
    (dispatchWebhookEvent raw).hasKey "timestamp" = false
    ∧ (dispatchWebhookEvent raw).hasKey "sessionId" = false
    ∧ (dispatchWebhookEvent raw).get "data" = raw := by
  have hd := dispatch_of_malformed raw h
  rw [hd]
  exact ⟨rfl, rfl, rfl⟩

/-- C10 witness: the frame property at an object with an empty-string event
field, a numeric timestamp, a sessionId and a data field. -/
theorem C10_malformed_no_metadata_witness :
    ((!c10Raw.truthy || !c10Raw.isObjectType || !(c10Raw.get "event").truthy) = true)
    ∧ ((dispatchWebhookEvent c10Raw).hasKey "timestamp" = false
       ∧ (dispatchWebhookEvent c10Raw).hasKey "sessionId" = false
       ∧ (dispatchWebhookEvent c10Raw).get "data" = c10Raw) :=
  ⟨rfl, C10_malformed_no_metadata c10Raw rfl⟩
